import Mathlib

/-
  Shallow embedding of src/python/ethaudio/api.py (EthAudio prototype controller).

  The Python module keeps a single in-memory `status` dictionary and mutates it
  through `set_power`, `set_source` and `set_zone`, dispatched from `parse_cmd`.
  Here the status is an explicit state value threaded through each operation;
  an operation returns `(Option String × StatusT)`: `none` models Python's
  `None` (success) and `some msg` models the error dict `{'error': msg}`.
  Python `None`-able arguments are modelled as `Option` values; the runtime
  object (`MockRt` / `RpiRt`) is a record of boolean-returning functions.
-/

namespace EthAudio

/-- A source entry of the status document (api.py line 142: id, name, digital). -/
structure SourceT where
  id : Int
  name : String
  digital : Bool
  deriving DecidableEq

/-- A zone entry of the status document (api.py line 148). -/
structure ZoneT where
  id : Int
  name : String
  source_id : Int
  mute : Bool
  stby : Bool
  disabled : Bool
  vol : Int
  deriving DecidableEq

/-- A group entry of the status document (api.py line 156). -/
structure GroupT where
  id : Int
  name : String
  zones : List Int
  deriving DecidableEq

/-- The power section of the status document (api.py line 137). -/
structure PowerT where
  audio_power : Bool
  usb_power : Bool
  deriving DecidableEq

/-- The whole status document held by `EthAudioApi.status`. -/
structure StatusT where
  power : PowerT
  sources : List SourceT
  zones : List ZoneT
  groups : List GroupT
  deriving DecidableEq

/-- A runtime object: the capability set `EthAudioApi` calls through `self._rt`.
    Each method returns `true` on success and `false` on hardware failure. -/
structure Runtime where
  set_power : Bool → Bool → Bool
  set_source : Nat → Bool → Bool
  set_zone : Nat → Int → Bool → Bool → Int → Bool → Bool

/-- MockRt.set_power: does nothing to its (empty) state and returns True. -/
def mock_set_power (st : Unit) (audio_on usb_on : Bool) : Bool × Unit :=
  (true, st)

/-- MockRt.set_source: does nothing to its (empty) state and returns True. -/
def mock_set_source (st : Unit) (id : Nat) (digital : Bool) : Bool × Unit :=
  (true, st)

/-- MockRt.set_zone: does nothing to its (empty) state and returns True.
    MockRt's `__init__` is `pass`, so its state carries no fields: `Unit`. -/
def mock_set_zone (st : Unit) (id : Nat) (source_id : Int) (mute stby : Bool)
    (vol : Int) (disabled : Bool) : Bool × Unit :=
  (true, st)

/-- The MockRt runtime as seen by the controller: every call returns True. -/
def mockRt : Runtime where
  set_power := fun a u => (mock_set_power () a u).1
  set_source := fun i d => (mock_set_source () i d).1
  set_zone := fun i sid m st v d => (mock_set_zone () i sid m st v d).1

/-- The RpiRt runtime: every method body is a TODO returning False. -/
def rpiRt : Runtime where
  set_power := fun _ _ => false
  set_source := fun _ _ => false
  set_zone := fun _ _ _ _ _ _ => false

/-- api.py `error(msg)`: wrap a message into an error response. `some msg`
    stands for the dict `{'error': msg}`. -/
def error (msg : String) : Option String :=
  some msg

/-- api.py `updated_val(update, val)`: take the update unless it is None. -/
def updated_val {α : Type} (update : Option α) (val : α) : α :=
  match update with
  | none => val
  | some u => u

/-- api.py `parse_int(i, options)`: return the integer when it is one of the
    options, otherwise raise ValueError (modelled as `Except.error`). -/
def parse_int (i : Int) (options : List Int) : Except String Int :=
  if i ∈ options then Except.ok i
  else Except.error (toString i ++ " is not in the given options")

/-- The option list `range(-79, 1)` used for `vol` in set_zone: -79..0. -/
def vol_options : List Int :=
  (List.range 80).map (fun n => (n : Int) - 79)

/-- The `for i, s in enumerate(...)` scan used by set_source / set_zone: the
    loop keeps overwriting `idx`, so the LAST index whose `id` field matches
    wins; `none` when no element matches. -/
def find_last_idx {α : Type} (f : α → Int) (l : List α) (id : Int) : Option Nat :=
  match l with
  | [] => none
  | x :: xs =>
    match find_last_idx f xs id with
    | some j => some (j + 1)
    | none => if f x = id then some 0 else none

/-- The initial status built in `EthAudioApi.__init__` (api.py lines 136-160). -/
def status0 : StatusT where
  power := { audio_power := false, usb_power := false }
  sources := [
    { id := 0, name := "Source 1", digital := false },
    { id := 1, name := "Source 2", digital := false },
    { id := 2, name := "Source 3", digital := false },
    { id := 3, name := "Source 4", digital := false }]
  zones := [
    { id := 0, name := "Zone 1", source_id := 0, mute := false, stby := false, disabled := false, vol := 0 },
    { id := 1, name := "Zone 2", source_id := 0, mute := false, stby := false, disabled := false, vol := 0 },
    { id := 2, name := "Zone 3", source_id := 0, mute := false, stby := false, disabled := false, vol := 0 },
    { id := 3, name := "Zone 4", source_id := 0, mute := false, stby := false, disabled := false, vol := 0 },
    { id := 4, name := "Zone 5", source_id := 0, mute := false, stby := false, disabled := false, vol := 0 },
    { id := 5, name := "Zone 6", source_id := 0, mute := false, stby := false, disabled := false, vol := 0 }]
  groups := [
    { id := 0, name := "Group 1", zones := [0, 1, 2] },
    { id := 1, name := "Group 2", zones := [2, 3, 4] },
    { id := 2, name := "Group 3", zones := [5] }]

/-- EthAudioApi.set_power (api.py lines 197-207). -/
def set_power (rt : Runtime) (audio_power usb_power : Option Bool)
    (s : StatusT) : Option String × StatusT :=
  let ap := updated_val audio_power s.power.audio_power
  let up := updated_val usb_power s.power.usb_power
  if rt.set_power ap up then
    (none, { s with power := { audio_power := ap, usb_power := up } })
  else
    (error "failed to set power", s)

/-- EthAudioApi.set_source (api.py lines 209-241). -/
def set_source (rt : Runtime) (id : Int) (name : Option String)
    (digital : Option Bool) (s : StatusT) : Option String × StatusT :=
  match find_last_idx SourceT.id s.sources id with
  | none => (error "set source: index None out of bounds", s)
  | some idx =>
    match s.sources.get? idx with
    | none => (error "failed to set source, error getting current state", s)
    | some src =>
      let nm := updated_val name src.name
      let dg := updated_val digital src.digital
      if rt.set_source idx dg then
        (none, { s with sources := s.sources.set idx ({ src with name := nm, digital := dg }) })
      else
        (error "failed to set source", s)

/-- EthAudioApi.set_zone (api.py lines 243-288). Note the validation set the
    code passes to parse_int for source_id is the literal `[1, 2, 3, 4]`. -/
def set_zone (rt : Runtime) (id : Int) (name : Option String)
    (source_id : Option Int) (mute stby : Option Bool) (vol : Option Int)
    (disabled : Option Bool) (s : StatusT) : Option String × StatusT :=
  match find_last_idx ZoneT.id s.zones id with
  | none => (error "set zone: index None out of bounds", s)
  | some idx =>
    match s.zones.get? idx with
    | none => (error "failed to set zone, error getting current state", s)
    | some z =>
      let nm := updated_val name z.name
      let sidv := updated_val source_id z.source_id
      let mu := updated_val mute z.mute
      let st := updated_val stby z.stby
      let vl := updated_val vol z.vol
      let di := updated_val disabled z.disabled
      match parse_int sidv [1, 2, 3, 4] with
      | Except.error e => (error ("set zone" ++ e), s)
      | Except.ok sid =>
        match parse_int vl vol_options with
        | Except.error e => (error ("set zone" ++ e), s)
        | Except.ok v =>
          if rt.set_zone idx sid mu st v di then
            let z2 : ZoneT := { z with name := nm, source_id := sid, mute := mu,
                                       stby := st, vol := v, disabled := di }
            (none, { s with zones := s.zones.set idx z2 })
          else
            (error "failed to set zone", s)

/-- A command dict as fed to parse_cmd. The outer `Option` on a field models
    whether the KEY is present in the dict (a missing key raises KeyError);
    the inner `Option` models a JSON null value (Python `None`). -/
structure Cmd where
  command : Option (Option String) := none
  id : Option Int := none
  name : Option (Option String) := none
  source_id : Option (Option Int) := none
  mute : Option (Option Bool) := none
  stby : Option (Option Bool) := none
  vol : Option (Option Int) := none
  disabled : Option (Option Bool) := none
  digital : Option (Option Bool) := none
  audio_power : Option (Option Bool) := none
  usb_power : Option (Option Bool) := none
  vol_delta : Option (Option Int) := none
  deriving DecidableEq

/-- The elif-chain of parse_cmd on a non-None command name (api.py lines
    174-189); argument dict accesses happen left to right, so the first
    missing key raises KeyError (modelled as `Except.error`). -/
def dispatch_command (rt : Runtime) (cname : String) (c : Cmd) (s : StatusT) :
    Except String (Option String × StatusT) :=
  if cname = "return_state" then
    Except.ok (none, s)
  else if cname = "set_power" then
    match c.audio_power with
    | none => Except.error "KeyError: audio_power"
    | some ap =>
      match c.usb_power with
      | none => Except.error "KeyError: usb_power"
      | some up => Except.ok (set_power rt ap up s)
  else if cname = "set_source" then
    match c.id with
    | none => Except.error "KeyError: id"
    | some i =>
      match c.name with
      | none => Except.error "KeyError: name"
      | some nm =>
        match c.digital with
        | none => Except.error "KeyError: digital"
        | some dg => Except.ok (set_source rt i nm dg s)
  else if cname = "set_zone" then
    match c.id with
    | none => Except.error "KeyError: id"
    | some i =>
      match c.name with
      | none => Except.error "KeyError: name"
      | some nm =>
        match c.source_id with
        | none => Except.error "KeyError: source_id"
        | some sid =>
          match c.mute with
          | none => Except.error "KeyError: mute"
          | some mu =>
            match c.stby with
            | none => Except.error "KeyError: stby"
            | some stb =>
              match c.vol with
              | none => Except.error "KeyError: vol"
              | some v =>
                match c.disabled with
                | none => Except.error "KeyError: disabled"
                | some di => Except.ok (set_zone rt i nm sid mu stb v di s)
  else if cname = "set_group" then
    Except.ok (error "set_group unimplemented", s)
  else if cname = "create_group" then
    Except.ok (error "create_group unimplemented", s)
  else if cname = "delete_group" then
    Except.ok (error "delete_group unimplemented", s)
  else
    Except.ok (error ("command " ++ cname ++ " is not supported"), s)

/-- The body of EthAudioApi.parse_cmd before its `except` clause (api.py
    lines 170-189): an uncaught exception shows up as `Except.error`. -/
def parse_cmd_inner (rt : Runtime) (c : Cmd) (s : StatusT) :
    Except String (Option String × StatusT) :=
  match c.command with
  | none => Except.error "KeyError: command"
  | some none => Except.ok (error "No command specified", s)
  | some (some cname) => dispatch_command rt cname c s

/-- The `except Exception as e: return error(str(e))` wrapper of parse_cmd:
    a raised exception becomes an error response, the status is untouched. -/
def except_wrap (x : Except String (Option String × StatusT)) (s : StatusT) :
    Option String × StatusT :=
  match x with
  | Except.ok r => r
  | Except.error e => (error e, s)

/-- EthAudioApi.parse_cmd (api.py lines 162-191). -/
def parse_cmd (rt : Runtime) (c : Cmd) (s : StatusT) : Option String × StatusT :=
  except_wrap (parse_cmd_inner rt c s) s

/-- Spec invariant 1 (§3): every zone's source_id is a valid source id 0..3. -/
def zone_source_ids_valid (s : StatusT) : Bool :=
  s.zones.all (fun z => decide (0 ≤ z.source_id) && decide (z.source_id ≤ 3))

/-- Modelled from the spec: the prototype's Source has no `input` field; spec
    §4.3 fixes the encoding `digital = (input ≠ "local")`, so a source has
    `input = "local"` exactly when its `digital` flag is false. -/
def input_is_local (s : SourceT) : Bool :=
  !s.digital

/-- The merged power section a successful set_power commits. -/
def merged_power (p : PowerT) (a u : Option Bool) : PowerT :=
  { audio_power := updated_val a p.audio_power, usb_power := updated_val u p.usb_power }

/-- The merged source entry a successful set_source commits. -/
def merged_source (src : SourceT) (nm : Option String) (dg : Option Bool) : SourceT :=
  { src with name := updated_val nm src.name, digital := updated_val dg src.digital }

/-- The merged zone entry a successful set_zone commits. -/
def merged_zone (z : ZoneT) (nm : Option String) (sid : Option Int)
    (mu stb : Option Bool) (v : Option Int) (di : Option Bool) : ZoneT :=
  { z with name := updated_val nm z.name, source_id := updated_val sid z.source_id,
           mute := updated_val mu z.mute, stby := updated_val stb z.stby,
           vol := updated_val v z.vol, disabled := updated_val di z.disabled }

/-- parse_int only ever returns the integer it was given. -/
lemma parse_int_ok (i : Int) (options : List Int) (j : Int)
    (h : parse_int i options = Except.ok j) : j = i := by
  unfold parse_int at h
  split at h
  · exact (Except.ok.inj h).symm
  · cases h

/-- parse_int succeeds only when the integer is among the options. -/
lemma parse_int_mem (i : Int) (options : List Int) (j : Int)
    (h : parse_int i options = Except.ok j) : i ∈ options := by
  unfold parse_int at h
  split at h
  · assumption
  · cases h

/-- Full behaviour of set_power: either the runtime call succeeds and the
    merged power flags are committed, or an error is returned and the status
    is unchanged. -/
lemma set_power_cases (rt : Runtime) (a u : Option Bool) (s : StatusT) :
    (rt.set_power (updated_val a s.power.audio_power) (updated_val u s.power.usb_power) = true
      ∧ set_power rt a u s = (none, { s with power := merged_power s.power a u }))
    ∨ ((set_power rt a u s).1 ≠ none ∧ (set_power rt a u s).2 = s) := by
  simp only [set_power]
  split
  next hb => exact Or.inl ⟨hb, rfl⟩
  next hb => exact Or.inr ⟨by simp [error], rfl⟩

/-- Full behaviour of set_source: either the target source is found, the
    runtime call succeeds and the merged fields are committed, or an error is
    returned and the status is unchanged. -/
lemma set_source_cases (rt : Runtime) (id : Int) (nm : Option String)
    (dg : Option Bool) (s : StatusT) :
    (∃ idx src, find_last_idx SourceT.id s.sources id = some idx
      ∧ s.sources.get? idx = some src
      ∧ rt.set_source idx (updated_val dg src.digital) = true
      ∧ set_source rt id nm dg s =
          (none, { s with sources := s.sources.set idx (merged_source src nm dg) }))
    ∨ ((set_source rt id nm dg s).1 ≠ none ∧ (set_source rt id nm dg s).2 = s) := by
  simp only [set_source]
  split
  · exact Or.inr ⟨by simp [error], rfl⟩
  next idx hf =>
    split
    · exact Or.inr ⟨by simp [error], rfl⟩
    next src hg =>
      split
      next hb => exact Or.inl ⟨idx, src, hf, hg, hb, rfl⟩
      next hb => exact Or.inr ⟨by simp [error], rfl⟩

/-- Full behaviour of set_zone: either the target zone is found, both
    parse_int validations pass (source_id against the literal list [1,2,3,4],
    vol against -79..0), the runtime call succeeds and the merged fields are
    committed, or an error is returned and the status is unchanged. -/
lemma set_zone_cases (rt : Runtime) (id : Int) (nm : Option String)
    (sid : Option Int) (mu stb : Option Bool) (v : Option Int)
    (di : Option Bool) (s : StatusT) :
    (∃ idx z, find_last_idx ZoneT.id s.zones id = some idx
      ∧ s.zones.get? idx = some z
      ∧ updated_val sid z.source_id ∈ ([1, 2, 3, 4] : List Int)
      ∧ updated_val v z.vol ∈ vol_options
      ∧ rt.set_zone idx (updated_val sid z.source_id) (updated_val mu z.mute)
          (updated_val stb z.stby) (updated_val v z.vol) (updated_val di z.disabled) = true
      ∧ set_zone rt id nm sid mu stb v di s =
          (none, { s with zones := s.zones.set idx (merged_zone z nm sid mu stb v di) }))
    ∨ ((set_zone rt id nm sid mu stb v di s).1 ≠ none
        ∧ (set_zone rt id nm sid mu stb v di s).2 = s) := by
  simp only [set_zone]
  split
  · exact Or.inr ⟨by simp [error], rfl⟩
  next idx hf =>
    split
    · exact Or.inr ⟨by simp [error], rfl⟩
    next z hg =>
      split
      next e hp => exact Or.inr ⟨by simp [error], rfl⟩
      next sidp hp =>
        split
        next e hpv => exact Or.inr ⟨by simp [error], rfl⟩
        next vp hpv =>
          have hsid : sidp = updated_val sid z.source_id := parse_int_ok _ _ _ hp
          have hvp : vp = updated_val v z.vol := parse_int_ok _ _ _ hpv
          subst hsid; subst hvp
          split
          next hb => exact Or.inl ⟨idx, z, hf, hg, parse_int_mem _ _ _ hp,
            parse_int_mem _ _ _ hpv, hb, rfl⟩
          next hb => exact Or.inr ⟨by simp [error], rfl⟩

/-- With RpiRt every set_power call fails and changes nothing. -/
lemma set_power_rpi (a u : Option Bool) (s : StatusT) :
    (set_power rpiRt a u s).1 ≠ none ∧ (set_power rpiRt a u s).2 = s := by
  rcases set_power_cases rpiRt a u s with ⟨hb, _⟩ | h
  · exact Bool.noConfusion hb
  · exact h

/-- With RpiRt every set_source call fails and changes nothing. -/
lemma set_source_rpi (id : Int) (nm : Option String) (dg : Option Bool)
    (s : StatusT) :
    (set_source rpiRt id nm dg s).1 ≠ none ∧ (set_source rpiRt id nm dg s).2 = s := by
  rcases set_source_cases rpiRt id nm dg s with ⟨idx, src, _, _, hb, _⟩ | h
  · exact Bool.noConfusion hb
  · exact h

/-- With RpiRt every set_zone call fails and changes nothing. -/
lemma set_zone_rpi (id : Int) (nm : Option String) (sid : Option Int)
    (mu stb : Option Bool) (v : Option Int) (di : Option Bool) (s : StatusT) :
    (set_zone rpiRt id nm sid mu stb v di s).1 ≠ none
      ∧ (set_zone rpiRt id nm sid mu stb v di s).2 = s := by
  rcases set_zone_cases rpiRt id nm sid mu stb v di s with
    ⟨idx, z, _, _, _, _, hb, _⟩ | h
  · exact Bool.noConfusion hb
  · exact h

/-- A missing command key becomes a KeyError error response. -/
lemma parse_cmd_key_err (rt : Runtime) (c : Cmd) (s : StatusT)
    (h : c.command = none) : parse_cmd rt c s = (error "KeyError: command", s) := by
  unfold parse_cmd parse_cmd_inner
  rw [h]
  rfl

/-- A null command value is answered with the No-command error. -/
lemma parse_cmd_no_command (rt : Runtime) (c : Cmd) (s : StatusT)
    (h : c.command = some none) :
    parse_cmd rt c s = (error "No command specified", s) := by
  unfold parse_cmd parse_cmd_inner
  rw [h]
  rfl

/-- A present command name goes through the elif-chain. -/
lemma parse_cmd_dispatch (rt : Runtime) (c : Cmd) (s : StatusT) (cn : String)
    (h : c.command = some (some cn)) :
    parse_cmd rt c s = except_wrap (dispatch_command rt cn c s) s := by
  unfold parse_cmd parse_cmd_inner
  rw [h]

/-- An exception from the try-body of parse_cmd is converted to an error
    response with the status untouched. -/
lemma parse_cmd_of_inner_err (rt : Runtime) (c : Cmd) (s : StatusT) (e : String)
    (h : parse_cmd_inner rt c s = Except.error e) :
    parse_cmd rt c s = (error e, s) := by
  unfold parse_cmd
  rw [h]
  rfl

/-- The elif-chain falls through to the not-supported error on a command
    name that matches no branch. -/
lemma dispatch_command_unknown (rt : Runtime) (cn : String) (c : Cmd) (s : StatusT)
    (h1 : cn ≠ "return_state") (h2 : cn ≠ "set_power") (h3 : cn ≠ "set_source")
    (h4 : cn ≠ "set_zone") (h5 : cn ≠ "set_group") (h6 : cn ≠ "create_group")
    (h7 : cn ≠ "delete_group") :
    dispatch_command rt cn c s
      = Except.ok (error ("command " ++ cn ++ " is not supported"), s) := by
  unfold dispatch_command
  rw [if_neg h1, if_neg h2, if_neg h3, if_neg h4, if_neg h5, if_neg h6, if_neg h7]

/-- Under RpiRt a successful dispatch never changes the status. -/
lemma dispatch_rpi_ok (cn : String) (c : Cmd) (s : StatusT)
    (r : Option String × StatusT)
    (h : dispatch_command rpiRt cn c s = Except.ok r) : r.2 = s := by
  unfold dispatch_command at h
  split at h
  · cases h; rfl
  · split at h
    · split at h
      · exact Except.noConfusion h
      · split at h
        · exact Except.noConfusion h
        · cases h; exact (set_power_rpi _ _ _).2
    · split at h
      · split at h
        · exact Except.noConfusion h
        · split at h
          · exact Except.noConfusion h
          · split at h
            · exact Except.noConfusion h
            · cases h; exact (set_source_rpi _ _ _ _).2
      · split at h
        · split at h
          · exact Except.noConfusion h
          · split at h
            · exact Except.noConfusion h
            · split at h
              · exact Except.noConfusion h
              · split at h
                · exact Except.noConfusion h
                · split at h
                  · exact Except.noConfusion h
                  · split at h
                    · exact Except.noConfusion h
                    · split at h
                      · exact Except.noConfusion h
                      · cases h; exact (set_zone_rpi _ _ _ _ _ _ _ _).2
        · split at h
          · cases h; rfl
          · split at h
            · cases h; rfl
            · split at h
              · cases h; rfl
              · cases h; rfl

/-- A result pair is determined by its two projections. -/
lemma pair_eq {p : Option String × StatusT} {m : String} {s : StatusT}
    (h1 : p.1 = some m) (h2 : p.2 = s) : p = (some m, s) := by
  cases p
  subst h1
  subst h2
  rfl

/-- Under RpiRt parse_cmd never changes the status. -/
lemma parse_cmd_rpi (c : Cmd) (s : StatusT) : (parse_cmd rpiRt c s).2 = s := by
  cases hc : c.command with
  | none => rw [parse_cmd_key_err rpiRt c s hc]
  | some command =>
    cases command with
    | none => rw [parse_cmd_no_command rpiRt c s hc]
    | some cn =>
      rw [parse_cmd_dispatch rpiRt c s cn hc]
      cases hres : dispatch_command rpiRt cn c s with
      | error e => rfl
      | ok r => exact dispatch_rpi_ok cn c s r hres

/-- C1: the claim says set_zone accepts source_id exactly on 0..3 and rejects
    source_id=4 leaving the zone unchanged. The code validates against the
    literal list [1, 2, 3, 4] (api.py line 273), contradicting its own
    docstring "source_id (int): source to connect to [0,3]": on the fresh
    status a set_zone with source_id=4 SUCCEEDS and commits 4, while
    source_id=0 is REJECTED (status unchanged). -/
theorem set_zone_source_id_validation_bug :
    (set_zone mockRt 0 none (some 4) none none none none status0).1 = none
    ∧ ((set_zone mockRt 0 none (some 4) none none none none status0).2.zones.map
        ZoneT.source_id) = [4, 0, 0, 0, 0, 0]
    ∧ (set_zone mockRt 0 none (some 0) none none none none status0).1 ≠ none
    ∧ (set_zone mockRt 0 none (some 0) none none none none status0).2 = status0 := by
  refine ⟨rfl, rfl, ?_, rfl⟩
  decide

/-- C2: the claim says every reachable state keeps each zone's source_id in
    0..3. One set_zone from the initial status (accepted because the code
    validates against [1, 2, 3, 4]) reaches a state whose zone 0 has
    source_id = 4, so the invariant is not preserved. -/
theorem zone_source_id_invariant_violated :
    zone_source_ids_valid status0 = true
    ∧ (set_zone mockRt 0 none (some 4) none none none none status0).1 = none
    ∧ zone_source_ids_valid
        (set_zone mockRt 0 none (some 4) none none none none status0).2 = false := by
  exact ⟨rfl, rfl, rfl⟩

/-- C3: atomicity — whenever set_power, set_source or set_zone returns an
    error response, the status document is completely unchanged. -/
theorem mutations_atomic (rt : Runtime) (a u : Option Bool) (s : StatusT)
    (id : Int) (nm : Option String) (dg : Option Bool) (sid : Option Int)
    (mu stb : Option Bool) (v : Option Int) (di : Option Bool) :
    ((set_power rt a u s).1 ≠ none → (set_power rt a u s).2 = s)
    ∧ ((set_source rt id nm dg s).1 ≠ none → (set_source rt id nm dg s).2 = s)
    ∧ ((set_zone rt id nm sid mu stb v di s).1 ≠ none →
        (set_zone rt id nm sid mu stb v di s).2 = s) := by
  refine ⟨fun h => ?_, fun h => ?_, fun h => ?_⟩
  · rcases set_power_cases rt a u s with ⟨_, heq⟩ | ⟨_, h2⟩
    · rw [heq] at h; exact absurd rfl h
    · exact h2
  · rcases set_source_cases rt id nm dg s with ⟨idx, src, _, _, _, heq⟩ | ⟨_, h2⟩
    · rw [heq] at h; exact absurd rfl h
    · exact h2
  · rcases set_zone_cases rt id nm sid mu stb v di s with
      ⟨idx, z, _, _, _, _, _, heq⟩ | ⟨_, h2⟩
    · rw [heq] at h; exact absurd rfl h
    · exact h2

/-- C3 witness: on the fresh status under RpiRt, set_zone with source_id=2
    errors and the status is exactly the initial one. -/
theorem mutations_atomic_witness :
    (set_zone rpiRt 0 none (some 2) none none none none status0).2 = status0 :=
  (mutations_atomic rpiRt none none status0 0 none none (some 2) none none
    none none).2.2 (by decide)

/-- C4: sparse-update merge — on every successful call, each None argument
    leaves the corresponding field at its current value and each supplied
    argument replaces it, for all fields of set_power, set_source and
    set_zone (merged_power / merged_source / merged_zone spell out the
    field-by-field `updated_val` merge). -/
theorem sparse_merge_semantics (rt : Runtime) (a u : Option Bool) (s : StatusT)
    (id : Int) (nm : Option String) (dg : Option Bool) (sid : Option Int)
    (mu stb : Option Bool) (v : Option Int) (di : Option Bool) :
    ((set_power rt a u s).1 = none →
      (set_power rt a u s).2 = { s with power := merged_power s.power a u })
    ∧ ((set_source rt id nm dg s).1 = none →
      ∃ idx src, find_last_idx SourceT.id s.sources id = some idx
        ∧ s.sources.get? idx = some src
        ∧ (set_source rt id nm dg s).2
            = { s with sources := s.sources.set idx (merged_source src nm dg) })
    ∧ ((set_zone rt id nm sid mu stb v di s).1 = none →
      ∃ idx z, find_last_idx ZoneT.id s.zones id = some idx
        ∧ s.zones.get? idx = some z
        ∧ (set_zone rt id nm sid mu stb v di s).2
            = { s with zones := s.zones.set idx (merged_zone z nm sid mu stb v di) }) := by
  refine ⟨fun h => ?_, fun h => ?_, fun h => ?_⟩
  · rcases set_power_cases rt a u s with ⟨_, heq⟩ | ⟨h1, _⟩
    · rw [heq]
    · exact absurd h h1
  · rcases set_source_cases rt id nm dg s with ⟨idx, src, hf, hg, _, heq⟩ | ⟨h1, _⟩
    · exact ⟨idx, src, hf, hg, by rw [heq]⟩
    · exact absurd h h1
  · rcases set_zone_cases rt id nm sid mu stb v di s with
      ⟨idx, z, hf, hg, _, _, _, heq⟩ | ⟨h1, _⟩
    · exact ⟨idx, z, hf, hg, by rw [heq]⟩
    · exact absurd h h1

/-- C4 witness: a successful set_power over MockRt with audio_power supplied
    and usb_power absent commits exactly the merged power section. -/
theorem sparse_merge_semantics_witness :
    (set_power mockRt (some true) none status0).2
      = { status0 with power := merged_power status0.power (some true) none } :=
  (sparse_merge_semantics mockRt (some true) none status0 0 none none none
    none none none none).1 (by decide)

/-- C5: hardware failure — under any runtime whose set_power / set_source /
    set_zone calls report failure (return false), the corresponding
    controller operation returns an error and commits nothing. -/
theorem hw_failure_no_commit (rt : Runtime) (a u : Option Bool) (s : StatusT)
    (id : Int) (nm : Option String) (dg : Option Bool) (sid : Option Int)
    (mu stb : Option Bool) (v : Option Int) (di : Option Bool) :
    ((∀ x y, rt.set_power x y = false) →
      (set_power rt a u s).1 ≠ none ∧ (set_power rt a u s).2 = s)
    ∧ ((∀ x y, rt.set_source x y = false) →
      (set_source rt id nm dg s).1 ≠ none ∧ (set_source rt id nm dg s).2 = s)
    ∧ ((∀ x1 x2 x3 x4 x5 x6, rt.set_zone x1 x2 x3 x4 x5 x6 = false) →
      (set_zone rt id nm sid mu stb v di s).1 ≠ none
        ∧ (set_zone rt id nm sid mu stb v di s).2 = s) := by
  refine ⟨fun hf => ?_, fun hf => ?_, fun hf => ?_⟩
  · rcases set_power_cases rt a u s with ⟨hb, _⟩ | h
    · rw [hf] at hb; exact Bool.noConfusion hb
    · exact h
  · rcases set_source_cases rt id nm dg s with ⟨idx, src, _, _, hb, _⟩ | h
    · rw [hf] at hb; exact Bool.noConfusion hb
    · exact h
  · rcases set_zone_cases rt id nm sid mu stb v di s with
      ⟨idx, z, _, _, _, _, hb, _⟩ | h
    · rw [hf] at hb; exact Bool.noConfusion hb
    · exact h

/-- C5 witness: RpiRt reports failure on every call, and indeed a set_zone
    with the in-range source_id 2 on the fresh status errors and leaves the
    status exactly as it was. -/
theorem hw_failure_no_commit_witness :
    (set_zone rpiRt 0 none (some 2) none none none none status0).1 ≠ none
      ∧ (set_zone rpiRt 0 none (some 2) none none none none status0).2 = status0 :=
  (hw_failure_no_commit rpiRt none none status0 0 none none (some 2) none
    none none none).2.2 (fun _ _ _ _ _ _ => rfl)

/-- C6: fresh-boot factory default — the initial status has exactly 4 sources
    named "Source 1".."Source 4", each local input (`digital = false`, the
    encoding spec §4.3 gives for `input = "local"`), and 6 zones each with
    source_id=0, vol=0, mute=false, stby=false, disabled=false. -/
theorem fresh_boot_defaults :
    status0.sources.length = 4
    ∧ status0.sources.map SourceT.name
        = ["Source 1", "Source 2", "Source 3", "Source 4"]
    ∧ status0.sources.all input_is_local = true
    ∧ status0.zones.length = 6
    ∧ status0.zones.all (fun z => z.source_id == 0 && z.vol == 0
        && !z.mute && !z.stby && !z.disabled) = true := by
  exact ⟨rfl, rfl, rfl, rfl, rfl⟩

/-- C7 counterexample: the claim says set_group applies vol_delta to member
    zones and succeeds; in the code set_group is unimplemented — on the fresh
    status a set_group command for existing group 0 with a vol_delta returns
    an error and changes nothing. -/
theorem set_group_counterexample :
    (parse_cmd mockRt
      { command := some (some "set_group"), id := some 0,
        vol_delta := some (some 10) } status0)
      = (some "set_group unimplemented", status0)
    ∧ (parse_cmd mockRt
        { command := some (some "set_group"), id := some 0,
          vol_delta := some (some 10) } status0).1 ≠ none := by
  refine ⟨rfl, ?_⟩
  decide

/-- C7 (amended): every set_group command — for any group id, any vol_delta
    and any status — returns the error "set_group unimplemented" and leaves
    the whole status (hence every member zone's vol) unchanged. -/
theorem set_group_unimplemented (rt : Runtime) (c : Cmd) (s : StatusT)
    (h : c.command = some (some "set_group")) :
    parse_cmd rt c s = (error "set_group unimplemented", s) := by
  rw [parse_cmd_dispatch rt c s _ h]
  rfl

/-- C7 witness: the concrete set_group command of the counterexample. -/
theorem set_group_unimplemented_witness :
    parse_cmd mockRt
      { command := some (some "set_group"), id := some 0,
        vol_delta := some (some 10) } status0
      = (error "set_group unimplemented", status0) :=
  set_group_unimplemented mockRt
    { command := some (some "set_group"), id := some 0,
      vol_delta := some (some 10) } status0 rfl

/-- C8 counterexample: the claim says the mock records the last argument of
    each call so a test can observe it (e.g. set_zone(0,2,false,false,0,false)).
    MockRt's constructor is `pass`: it keeps no state (here `Unit`), so no
    observer function can recover the arguments of the last set_zone call —
    the states after the (0,2,..) call and after a different call coincide. -/
theorem mock_records_nothing :
    ¬ ∃ f : Unit → Nat × Int × Bool × Bool × Int × Bool,
      ∀ (i : Nat) (sid : Int) (m st : Bool) (v : Int) (d : Bool),
        f (mock_set_zone () i sid m st v d).2 = (i, sid, m, st, v, d) := by
  rintro ⟨f, hf⟩
  have h1 := hf 0 2 false false 0 false
  have h2 := hf 0 3 false false 0 false
  rw [h1] at h2
  simp at h2

/-- C8 (amended): every MockRt call returns True for all arguments and leaves
    the mock state untouched; the mock records nothing about the call. -/
theorem mock_always_succeeds (st : Unit) (i : Nat) (sid : Int)
    (m stb : Bool) (v : Int) (d a u : Bool) :
    mock_set_power st a u = (true, st)
    ∧ mock_set_source st i d = (true, st)
    ∧ mock_set_zone st i sid m stb v d = (true, st) :=
  ⟨rfl, rfl, rfl⟩

/-- C9: parse_cmd is total over command dicts — its result is success (None)
    or an error dict; a missing command key, a null command, a missing
    argument key of a dispatched operation, an unknown command name, and any
    exception from the try-body (`parse_cmd_inner` erroring) all become error
    responses with the status unchanged, never an uncaught exception. -/
theorem parse_cmd_total (rt : Runtime) (c : Cmd) (s : StatusT) :
    ((parse_cmd rt c s).1 = none ∨ ∃ m, (parse_cmd rt c s).1 = some m)
    ∧ (∀ e, parse_cmd_inner rt c s = Except.error e →
        parse_cmd rt c s = (error e, s))
    ∧ (c.command = none → parse_cmd rt c s = (error "KeyError: command", s))
    ∧ (c.command = some none →
        parse_cmd rt c s = (error "No command specified", s))
    ∧ (∀ cn, c.command = some (some cn) → c.id = none →
        (cn = "set_source" ∨ cn = "set_zone") →
        parse_cmd rt c s = (error "KeyError: id", s))
    ∧ (∀ cn, c.command = some (some cn) →
        cn ∉ (["return_state", "set_power", "set_source", "set_zone",
               "set_group", "create_group", "delete_group"] : List String) →
        parse_cmd rt c s
          = (error ("command " ++ cn ++ " is not supported"), s)) := by
  refine ⟨?_, ?_, ?_, ?_, ?_, ?_⟩
  · cases h : (parse_cmd rt c s).1 with
    | none => exact Or.inl rfl
    | some m => exact Or.inr ⟨m, rfl⟩
  · exact fun e he => parse_cmd_of_inner_err rt c s e he
  · exact fun h => parse_cmd_key_err rt c s h
  · exact fun h => parse_cmd_no_command rt c s h
  · intro cn hc hid hcn
    rw [parse_cmd_dispatch rt c s cn hc]
    rcases hcn with rfl | rfl
    · unfold dispatch_command
      rw [hid]
      rfl
    · unfold dispatch_command
      rw [hid]
      rfl
  · intro cn hc hn
    simp only [List.mem_cons, List.not_mem_nil, or_false, not_or] at hn
    obtain ⟨h1, h2, h3, h4, h5, h6, h7⟩ := hn
    rw [parse_cmd_dispatch rt c s cn hc,
      dispatch_command_unknown rt cn c s h1 h2 h3 h4 h5 h6 h7]
    rfl

/-- C9 witness: the empty command dict is answered with the KeyError error
    response and the fresh status is untouched. -/
theorem parse_cmd_total_witness :
    parse_cmd mockRt {} status0 = (error "KeyError: command", status0) :=
  (parse_cmd_total mockRt {} status0).2.2.1 rfl

/-- C10: RpiRt returns False from set_power, set_source and set_zone for all
    arguments; a controller over RpiRt errors on every state-mutating
    operation and its status never changes — over any sequence of parse_cmd
    commands the status stays at its starting value. -/
theorem rpi_never_commits (a u : Option Bool) (s : StatusT) (id : Int)
    (nm : Option String) (dg : Option Bool) (sid : Option Int)
    (mu stb : Option Bool) (v : Option Int) (di : Option Bool) :
    (∀ x y, rpiRt.set_power x y = false)
    ∧ (∀ x y, rpiRt.set_source x y = false)
    ∧ (∀ x1 x2 x3 x4 x5 x6, rpiRt.set_zone x1 x2 x3 x4 x5 x6 = false)
    ∧ (∃ m, set_power rpiRt a u s = (some m, s))
    ∧ (∃ m, set_source rpiRt id nm dg s = (some m, s))
    ∧ (∃ m, set_zone rpiRt id nm sid mu stb v di s = (some m, s))
    ∧ (∀ c : Cmd, (parse_cmd rpiRt c s).2 = s)
    ∧ (∀ cs : List Cmd,
        cs.foldl (fun t c => (parse_cmd rpiRt c t).2) s = s) := by
  refine ⟨fun _ _ => rfl, fun _ _ => rfl, fun _ _ _ _ _ _ => rfl, ?_, ?_, ?_,
    fun c => parse_cmd_rpi c s, ?_⟩
  · rcases set_power_rpi a u s with ⟨h1, h2⟩
    cases h : (set_power rpiRt a u s).1 with
    | none => exact absurd h h1
    | some m => exact ⟨m, pair_eq h h2⟩
  · rcases set_source_rpi id nm dg s with ⟨h1, h2⟩
    cases h : (set_source rpiRt id nm dg s).1 with
    | none => exact absurd h h1
    | some m => exact ⟨m, pair_eq h h2⟩
  · rcases set_zone_rpi id nm sid mu stb v di s with ⟨h1, h2⟩
    cases h : (set_zone rpiRt id nm sid mu stb v di s).1 with
    | none => exact absurd h h1
    | some m => exact ⟨m, pair_eq h h2⟩
  · intro cs
    induction cs with
    | nil => rfl
    | cons c cs ih =>
      show List.foldl _ ((parse_cmd rpiRt c s).2) cs = s
      rw [parse_cmd_rpi c s]
      exact ih

end EthAudio
